import Mathlib

/-!
Verification development for the heart-beat monitoring service (`app.py`).

The Python source is shallowly embedded: the durable store (`heart_beat` and
`device_map` tables) becomes a pair of lists of records, timestamps are
integers (seconds), every endpoint body becomes a pure function from a store
(plus inputs) to a new store and a response, and SQL-transaction rollback is
made explicit by returning the original store when an error aborts the unit
of work.  An abstract parameter `fromiso` stands for the Python library
function `datetime.fromisoformat`; failure of a storage statement is driven
by an explicit error schedule `oracle`.
-/

namespace HeartBeat

/-- Timestamps as integers (seconds since an arbitrary epoch).
`datetime` values in the source are totally ordered and support subtraction
of a fixed 5-minute delta, which this captures. -/
abbrev Timestamp := Int

/-- Embedding of the Python expression `s.replace('Z', '+00:00')` at the
character level: every occurrence of `Z` (at any position, not only a
trailing one) is replaced by the six characters `+00:00`. -/
def replaceZChars : List Char → List Char
  | [] => []
  | c :: cs =>
    if c = 'Z' then '+' :: '0' :: '0' :: ':' :: '0' :: '0' :: replaceZChars cs
    else c :: replaceZChars cs

/-- Embedding of `heartbeat.beat_time.replace('Z', '+00:00')` on `String`. -/
def replaceZ (s : String) : String := ⟨replaceZChars s.data⟩

/-- Embedding of `datetime.fromisoformat(s.replace('Z', '+00:00'))`, the
expression used both by heartbeat submission (app.py line 150) and by
heartbeat update (line 289).  `fromiso` abstracts the library parser
`datetime.fromisoformat`: `none` models a raised `ValueError`. -/
def parse_beat_time (fromiso : String → Option Timestamp) (s : String) :
    Option Timestamp :=
  fromiso (replaceZ s)

/-- Row of the `heart_beat` table (id column omitted; it is never read by
the core logic beyond existence checks). -/
structure HeartbeatRow where
  ip_address : String
  mac_address : String
  sn : String
  beat_time : Timestamp
  create_time : Timestamp
  deriving DecidableEq, Repr

/-- Row of the `device_map` table. -/
structure DeviceRow where
  id : Nat
  mac_address : String
  device_name : Option String
  device_type : Option String
  status : String
  location : Option String
  create_time : Timestamp
  deriving DecidableEq, Repr

/-- The durable store: the two tables the core reads and writes. -/
structure Store where
  heart_beat : List HeartbeatRow
  device_map : List DeviceRow
  deriving DecidableEq, Repr

/-- Error response: an `HTTPException(status_code, detail)`. -/
structure Err where
  code : Nat
  detail : String
  deriving DecidableEq, Repr

/-- Pydantic model `HeartBeatInput`. -/
structure HeartBeatInput where
  ip_address : String
  mac_address : String
  sn : String
  beat_time : String
  deriving DecidableEq, Repr

/-- Pydantic model `HeartBeatUpdate`: all fields optional. -/
structure HeartBeatUpdate where
  ip_address : Option String
  sn : Option String
  beat_time : Option String
  deriving DecidableEq, Repr

/-- Pydantic model `UpdateResponse`. -/
structure UpdateResponse where
  updated_fields : List String
  message : String
  deriving DecidableEq, Repr

/-- Successful response of `POST /heartbeat`: either the joined
`device_map` row, or the "device not found in device_map" acknowledgement. -/
inductive UpsertResult where
  | device (d : DeviceRow)
  | unregistered (mac : String)
  deriving DecidableEq, Repr

/-- Generic storage error (any exception from the store, caught by the
endpoint's `except Exception` handler and re-raised as HTTP 500). -/
def storageErr : Err := ⟨500, "storage error"⟩

/-- Embedding of the endpoint `create_or_update_heartbeat` (app.py lines
135-201).  `oracle n = true` means the n-th storage statement of the unit
of work raises; because the existence check, the insert-or-update and the
`device_map` lookup run inside one `conn.transaction()` block, an abort at
any of them returns the ORIGINAL store (rollback).  A `ValueError` from
timestamp parsing (before the transaction) reaches the generic handler and
becomes HTTP 500 with the exception text. -/
def create_or_update_heartbeat (fromiso : String → Option Timestamp)
    (oracle : Nat → Bool) (st : Store) (inp : HeartBeatInput)
    (now : Timestamp) : Store × Except Err UpsertResult :=
  match parse_beat_time fromiso inp.beat_time with
  | none => (st, .error ⟨500, "Invalid isoformat string: " ++ inp.beat_time⟩)
  | some bt =>
    if oracle 0 then (st, .error storageErr) else
    if oracle 1 then (st, .error storageErr) else
    let hb :=
      if ∃ r ∈ st.heart_beat, r.mac_address = inp.mac_address then
        st.heart_beat.map fun r =>
          if r.mac_address = inp.mac_address then { r with beat_time := bt }
          else r
      else
        st.heart_beat ++ [⟨inp.ip_address, inp.mac_address, inp.sn, bt, now⟩]
    if oracle 2 then (st, .error storageErr) else
    match st.device_map.find? (fun d => d.mac_address = inp.mac_address) with
    | some d => ({ st with heart_beat := hb }, .ok (.device d))
    | none => ({ st with heart_beat := hb }, .ok (.unregistered inp.mac_address))

/-- The list `updated_field_names` built by `update_heartbeat` (app.py lines
276-292): the names of exactly the supplied fields, in source order. -/
def suppliedNames (u : HeartBeatUpdate) : List String :=
  (if u.ip_address.isSome then ["ip_address"] else []) ++
  (if u.sn.isSome then ["sn"] else []) ++
  (if u.beat_time.isSome then ["beat_time"] else [])

/-- Tail of `update_heartbeat` once the record exists and `beat_time` (if
supplied) parsed to `bt`: build the field list, reject an empty one with
HTTP 400, otherwise run the dynamic `UPDATE` and report the field names. -/
def update_apply (st : Store) (mac : String) (u : HeartBeatUpdate)
    (bt : Option Timestamp) : Store × Except Err UpdateResponse :=
  let names :=
    (if u.ip_address.isSome then ["ip_address"] else []) ++
    (if u.sn.isSome then ["sn"] else []) ++
    (if bt.isSome then ["beat_time"] else [])
  if names.isEmpty then (st, .error ⟨400, "No fields to update"⟩)
  else
    ({ st with heart_beat := st.heart_beat.map fun r =>
        if r.mac_address = mac then
          { r with ip_address := u.ip_address.getD r.ip_address,
                   sn := u.sn.getD r.sn,
                   beat_time := bt.getD r.beat_time }
        else r },
     .ok ⟨names, "Successfully updated " ++ toString names.length ++ " field(s)"⟩)

/-- Embedding of the endpoint `update_heartbeat` (app.py lines 255-315):
404 when no record exists for the MAC; then field building, during which a
bad `beat_time` raises `ValueError` (HTTP 500 via the generic handler);
400 when no field was supplied; otherwise the partial update. -/
def update_heartbeat (fromiso : String → Option Timestamp) (st : Store)
    (mac : String) (u : HeartBeatUpdate) :
    Store × Except Err UpdateResponse :=
  if ∃ r ∈ st.heart_beat, r.mac_address = mac then
    match u.beat_time with
    | some s =>
      match parse_beat_time fromiso s with
      | none => (st, .error ⟨500, "Invalid isoformat string: " ++ s⟩)
      | some bt => update_apply st mac u (some bt)
    | none => update_apply st mac u none
  else (st, .error ⟨404, "Heart beat record not found"⟩)

/-- The 5-minute timeout window (`timedelta(minutes=5)`), in seconds. -/
def fiveMinutes : Int := 5 * 60

/-- Embedding of `UPDATE device_map SET status = s WHERE mac_address = mac`. -/
def setStatus (dm : List DeviceRow) (mac s : String) : List DeviceRow :=
  dm.map fun d => if d.mac_address = mac then { d with status := s } else d

/-- Embedding of the first query of a tick (app.py lines 369-375):
`SELECT DISTINCT h.mac_address FROM heart_beat h INNER JOIN device_map d ON
h.mac_address = d.mac_address WHERE h.beat_time < threshold AND
d.status != 'offline'`. -/
def timeout_query (hb : List HeartbeatRow) (dm : List DeviceRow)
    (threshold : Timestamp) : List String :=
  ((hb.filter fun h => decide (h.beat_time < threshold ∧
      ∃ d ∈ dm, d.mac_address = h.mac_address ∧ d.status ≠ "offline")).map
    (fun h => h.mac_address)).dedup

/-- Embedding of the second query of a tick (app.py lines 393-400), run
after the offline updates of the same transaction:
`SELECT DISTINCT h.mac_address ... WHERE h.beat_time >= threshold AND
d.status = 'offline'`. -/
def online_query (hb : List HeartbeatRow) (dm : List DeviceRow)
    (threshold : Timestamp) : List String :=
  ((hb.filter fun h => decide (threshold ≤ h.beat_time ∧
      ∃ d ∈ dm, d.mac_address = h.mac_address ∧ d.status = "offline")).map
    (fun h => h.mac_address)).dedup

/-- Embedding of one enabled iteration of `monitor_heartbeat_task` (app.py
lines 360-419): compute the threshold, flip timed-out devices to offline,
then flip recently-heartbeating offline devices to online, all in one
transaction; return the new store and the two transition counts. -/
def monitor_tick (st : Store) (now : Timestamp) : Store × Nat × Nat :=
  let threshold := now - fiveMinutes
  let timeout_devices := timeout_query st.heart_beat st.device_map threshold
  let dm1 := timeout_devices.foldl (fun dm mac => setStatus dm mac "offline")
    st.device_map
  let offline_count := (timeout_devices.filter fun mac =>
    decide (∃ d ∈ st.device_map, d.mac_address = mac)).length
  let online_devices := online_query st.heart_beat dm1 threshold
  let dm2 := online_devices.foldl (fun dm mac => setStatus dm mac "online") dm1
  let online_count := (online_devices.filter fun mac =>
    decide (∃ d ∈ dm1, d.mac_address = mac)).length
  ({ st with device_map := dm2 }, offline_count, online_count)

/-- Handle of a spawned `monitor_heartbeat_task` instance: `asyncio.Task`.
`finished` is what `task.done()` reports. -/
structure ReconTask where
  id : Nat
  finished : Bool
  deriving DecidableEq, Repr

/-- Process-wide control state.  `monitor_task` is the MODULE-LEVEL global
of app.py line 72; `app_state_task` is `app.state.monitor_task` set by
`lifespan`; `live_tasks` lists the ids of the reconciler loop instances
actually running on the event loop (a task leaves it only when cancelled
and awaited). -/
structure AppState where
  monitor_task : Option ReconTask
  app_state_task : Option ReconTask
  monitor_enabled : Bool
  live_tasks : List Nat
  next_id : Nat
  deriving DecidableEq, Repr

/-- State at interpreter start: global `monitor_task = None`,
`monitor_enabled = True`, no task running (app.py lines 72-73). -/
def initState : AppState := ⟨none, none, true, [], 0⟩

/-- Embedding of the startup half of `lifespan` (app.py lines 108-110).
The assignment `monitor_task = asyncio.create_task(...)` carries no
`global monitor_task` declaration, so in Python it binds a FUNCTION-LOCAL
name: the module-level global stays `None`; only `app.state.monitor_task`
ends up referencing the spawned task.  The embedding reproduces that
scoping faithfully. -/
def startup (s : AppState) : AppState :=
  { s with app_state_task := some ⟨s.next_id, false⟩,
           live_tasks := s.live_tasks ++ [s.next_id],
           next_id := s.next_id + 1 }

/-- Embedding of the endpoint `restart_monitor` (app.py lines 535-563,
success path): if the GLOBAL `monitor_task` holds an unfinished task,
cancel it and await its termination; then spawn a fresh task into the
global and force `monitor_enabled = True`. -/
def restart_monitor (s : AppState) : AppState :=
  let s1 :=
    match s.monitor_task with
    | some t =>
      if t.finished then s
      else { s with live_tasks := s.live_tasks.erase t.id }
    | none => s
  { s1 with monitor_task := some ⟨s1.next_id, false⟩,
            live_tasks := s1.live_tasks ++ [s1.next_id],
            monitor_enabled := true,
            next_id := s1.next_id + 1 }

/-- Embedding of the endpoint `get_monitor_status` (app.py lines 514-532):
`task_status = "running"` exactly when the GLOBAL `monitor_task` is not
`None` and not done. -/
def get_monitor_status (s : AppState) : Bool × String :=
  (s.monitor_enabled,
    match s.monitor_task with
    | some t => if t.finished then "stopped" else "running"
    | none => "stopped")

/-- Concrete store fixture for witness theorems: one heartbeat row and one
registered online device for MAC "AA:BB". -/
def sampleStore : Store :=
  ⟨[⟨"10.0.0.1", "AA:BB", "X1", 100, 7⟩],
   [⟨1, "AA:BB", none, none, "online", none, 0⟩]⟩

/-- Concrete stand-in for the abstract timestamp parser in witness
theorems: every string parses, to its length. -/
def lenIso : String → Option Timestamp := fun s => some (s.length : Int)

/-! ## Helper lemmas -/

/-- Folding `setStatus` with one status `s` over a list of MACs is the same
as a single pass setting `status := s` on every row whose MAC is in the
list. -/
theorem foldl_setStatus_eq (macs : List String) (dm : List DeviceRow)
    (s : String) :
    macs.foldl (fun dm mac => setStatus dm mac s) dm =
      dm.map (fun d => if d.mac_address ∈ macs then { d with status := s }
        else d) := by
  induction macs generalizing dm with
  | nil =>
    simp [List.foldl]
  | cons m ms ih =>
    rw [List.foldl_cons, ih, setStatus, List.map_map]
    apply List.map_congr_left
    intro d _
    by_cases h1 : d.mac_address = m
    · by_cases h2 : d.mac_address ∈ ms <;>
        simp [Function.comp, h1, h2]
    · by_cases h2 : d.mac_address ∈ ms <;>
        simp [Function.comp, h1, h2, List.mem_cons]

/-- Zipping a list with its own map pairs each element with its image. -/
theorem zip_self_map {α β : Type} (l : List α) (g : α → β) :
    l.zip (l.map g) = l.map fun a => (a, g a) := by
  induction l with
  | nil => rfl
  | cons a as ih => simpa [List.zip] using ih

/-- Membership in the result of the offline query. -/
theorem mem_timeout_query {hb : List HeartbeatRow} {dm : List DeviceRow}
    {threshold : Timestamp} {mac : String} :
    mac ∈ timeout_query hb dm threshold ↔
      ∃ h ∈ hb, h.mac_address = mac ∧ h.beat_time < threshold ∧
        ∃ d ∈ dm, d.mac_address = mac ∧ d.status ≠ "offline" := by
  unfold timeout_query
  rw [List.mem_dedup, List.mem_map]
  constructor
  · rintro ⟨h, hmem, rfl⟩
    rw [List.mem_filter, decide_eq_true_iff] at hmem
    exact ⟨h, hmem.1, rfl, hmem.2.1, hmem.2.2⟩
  · rintro ⟨h, hmem, rfl, hlt, hd⟩
    exact ⟨h, List.mem_filter.mpr ⟨hmem, decide_eq_true (by exact ⟨hlt, hd⟩)⟩, rfl⟩

/-- Membership in the result of the online query. -/
theorem mem_online_query {hb : List HeartbeatRow} {dm : List DeviceRow}
    {threshold : Timestamp} {mac : String} :
    mac ∈ online_query hb dm threshold ↔
      ∃ h ∈ hb, h.mac_address = mac ∧ threshold ≤ h.beat_time ∧
        ∃ d ∈ dm, d.mac_address = mac ∧ d.status = "offline" := by
  unfold online_query
  rw [List.mem_dedup, List.mem_map]
  constructor
  · rintro ⟨h, hmem, rfl⟩
    rw [List.mem_filter, decide_eq_true_iff] at hmem
    exact ⟨h, hmem.1, rfl, hmem.2.1, hmem.2.2⟩
  · rintro ⟨h, hmem, rfl, hle, hd⟩
    exact ⟨h, List.mem_filter.mpr ⟨hmem, decide_eq_true (by exact ⟨hle, hd⟩)⟩, rfl⟩

/-- The device table after a tick, as a single map over the old table. -/
theorem monitor_tick_device_map (st : Store) (now : Timestamp) :
    (monitor_tick st now).1.device_map =
      st.device_map.map (fun d =>
        let d1 := if d.mac_address ∈
            timeout_query st.heart_beat st.device_map (now - fiveMinutes)
          then { d with status := "offline" } else d
        if d1.mac_address ∈ online_query st.heart_beat
            (st.device_map.map (fun d => if d.mac_address ∈
              timeout_query st.heart_beat st.device_map (now - fiveMinutes)
              then { d with status := "offline" } else d))
            (now - fiveMinutes)
          then { d1 with status := "online" } else d1) := by
  unfold monitor_tick
  simp only [foldl_setStatus_eq, List.map_map]
  rfl

/-! ## Claim theorems -/

/-- C1: the claim "after restart() completes, starting from process
startup, exactly one Reconciler loop task is running" FAILS on the code:
`lifespan` assigns the spawned task to a function-local `monitor_task`
(no `global` declaration), so the module global that `restart_monitor`
cancels is still `None` at the first restart; the startup task is never
cancelled and TWO reconciler tasks are live after one (and after two)
restart calls. -/
theorem c1_two_reconcilers_after_restart :
    (restart_monitor (startup initState)).live_tasks.length = 2 ∧
    (restart_monitor (restart_monitor (startup initState))).live_tasks.length
      = 2 := by
  constructor <;> rfl

/-- C3: a device whose every heartbeat row carries `beat_time` exactly
equal to the tick threshold `now − 5 minutes` is not selected by the
offline query (the comparison is strict `<`), and the tick never moves a
row of that device from a non-"offline" status to "offline". -/
theorem c3_boundary_not_marked_offline (st : Store) (now : Timestamp)
    (mac : String)
    (hb : ∀ h ∈ st.heart_beat, h.mac_address = mac →
      h.beat_time = now - fiveMinutes) :
    mac ∉ timeout_query st.heart_beat st.device_map (now - fiveMinutes) ∧
    ∀ p ∈ st.device_map.zip (monitor_tick st now).1.device_map,
      p.1.mac_address = mac → p.1.status ≠ "offline" →
        p.2.status ≠ "offline" := by
  have hnot : mac ∉ timeout_query st.heart_beat st.device_map
      (now - fiveMinutes) := by
    rw [mem_timeout_query]
    rintro ⟨h, hmem, hmac, hlt, -⟩
    rw [hb h hmem hmac] at hlt
    exact lt_irrefl _ hlt
  refine ⟨hnot, ?_⟩
  intro p hp hmac hstat
  rw [monitor_tick_device_map, zip_self_map, List.mem_map] at hp
  obtain ⟨d, -, rfl⟩ := hp
  simp only at hmac hstat ⊢
  rw [hmac, if_neg hnot]
  split
  · exact fun hcontra => by simp at hcontra
  · exact hstat

/-- C7: the claim "after process startup and before any restart, the
monitor-status probe reports task_status = 'running'" FAILS on the code:
`lifespan` never writes the module-level global `monitor_task` (missing
`global` declaration), so `get_monitor_status` sees `None` and reports
"stopped" even though exactly one Reconciler task is live. -/
theorem c7_probe_stopped_while_task_live :
    get_monitor_status (startup initState) = (true, "stopped") ∧
    (startup initState).live_tasks = [0] := by
  constructor <;> rfl

/-- C9: a device with a `device_map` row but no `heart_beat` row is
selected by neither tick query (both are inner joins through
`heart_beat`), and every one of its `device_map` rows is left entirely
unchanged by a tick. -/
theorem c9_no_heartbeat_untouched (st : Store) (now : Timestamp)
    (mac : String)
    (hnone : ∀ h ∈ st.heart_beat, h.mac_address ≠ mac) :
    mac ∉ timeout_query st.heart_beat st.device_map (now - fiveMinutes) ∧
    (∀ dm : List DeviceRow,
      mac ∉ online_query st.heart_beat dm (now - fiveMinutes)) ∧
    ∀ p ∈ st.device_map.zip (monitor_tick st now).1.device_map,
      p.1.mac_address = mac → p.2 = p.1 := by
  have htq : mac ∉ timeout_query st.heart_beat st.device_map
      (now - fiveMinutes) := by
    rw [mem_timeout_query]
    rintro ⟨h, hmem, hmac, -⟩
    exact hnone h hmem hmac
  have hoq : ∀ dm : List DeviceRow,
      mac ∉ online_query st.heart_beat dm (now - fiveMinutes) := by
    intro dm hin
    rw [mem_online_query] at hin
    obtain ⟨h, hmem, hmac, -⟩ := hin
    exact hnone h hmem hmac
  refine ⟨htq, hoq, ?_⟩
  intro p hp hmac
  rw [monitor_tick_device_map, zip_self_map, List.mem_map] at hp
  obtain ⟨d, -, rfl⟩ := hp
  simp only at hmac ⊢
  rw [hmac, if_neg htq, hmac, if_neg (hoq _)]

/-- Witness for C3 at a concrete store: one heartbeat row exactly at the
threshold (beat_time 700 = 1000 − 300) for an online device. -/
theorem c3_boundary_witness :
    "AA:BB" ∉ timeout_query
        [(⟨"10.0.0.1", "AA:BB", "X1", 700, 0⟩ : HeartbeatRow)]
        [(⟨1, "AA:BB", none, none, "online", none, 0⟩ : DeviceRow)]
        (1000 - fiveMinutes) ∧
    ∀ p ∈ List.zip [(⟨1, "AA:BB", none, none, "online", none, 0⟩ : DeviceRow)]
        (monitor_tick ⟨[⟨"10.0.0.1", "AA:BB", "X1", 700, 0⟩],
          [⟨1, "AA:BB", none, none, "online", none, 0⟩]⟩ 1000).1.device_map,
      p.1.mac_address = "AA:BB" → p.1.status ≠ "offline" →
        p.2.status ≠ "offline" :=
  c3_boundary_not_marked_offline
    ⟨[⟨"10.0.0.1", "AA:BB", "X1", 700, 0⟩],
     [⟨1, "AA:BB", none, none, "online", none, 0⟩]⟩ 1000 "AA:BB" (by decide)

/-- Witness for C9 at a concrete store: a registered device with an empty
`heart_beat` table. -/
theorem c9_no_heartbeat_witness :
    "AA:BB" ∉ timeout_query []
        [(⟨1, "AA:BB", none, none, "maintenance", none, 0⟩ : DeviceRow)]
        (1000 - fiveMinutes) ∧
    "AA:BB" ∉ online_query []
        [(⟨1, "AA:BB", none, none, "maintenance", none, 0⟩ : DeviceRow)]
        (1000 - fiveMinutes) ∧
    ∀ p ∈ List.zip [(⟨1, "AA:BB", none, none, "maintenance", none, 0⟩ : DeviceRow)]
        (monitor_tick ⟨[],
          [⟨1, "AA:BB", none, none, "maintenance", none, 0⟩]⟩ 1000).1.device_map,
      p.1.mac_address = "AA:BB" → p.2 = p.1 :=
  ⟨(c9_no_heartbeat_untouched
      ⟨[], [⟨1, "AA:BB", none, none, "maintenance", none, 0⟩]⟩ 1000 "AA:BB"
      (by decide)).1,
   (c9_no_heartbeat_untouched
      ⟨[], [⟨1, "AA:BB", none, none, "maintenance", none, 0⟩]⟩ 1000 "AA:BB"
      (by decide)).2.1 _,
   (c9_no_heartbeat_untouched
      ⟨[], [⟨1, "AA:BB", none, none, "maintenance", none, 0⟩]⟩ 1000 "AA:BB"
      (by decide)).2.2⟩

/-- On the success path (no storage error, timestamp parses to `t`), the
heartbeat table after an upsert: update of `beat_time` alone when a row for
the MAC exists, insert of a full row otherwise. -/
theorem upsert_ok_heart_beat (fromiso : String → Option Timestamp)
    (st : Store) (inp : HeartBeatInput) (now t : Timestamp)
    (hp : parse_beat_time fromiso inp.beat_time = some t) :
    (create_or_update_heartbeat fromiso (fun _ => false) st inp now).1 =
      { st with heart_beat :=
          if ∃ r ∈ st.heart_beat, r.mac_address = inp.mac_address then
            st.heart_beat.map fun r =>
              if r.mac_address = inp.mac_address then { r with beat_time := t }
              else r
          else
            st.heart_beat ++
              [⟨inp.ip_address, inp.mac_address, inp.sn, t, now⟩] } := by
  unfold create_or_update_heartbeat
  rw [hp]
  cases hfind : st.device_map.find?
      (fun d => d.mac_address = inp.mac_address) <;>
    simp [hfind]

/-- C2: submitting a heartbeat twice for the same MAC (starting from a
store with no record for it, both timestamps parsing, no storage failure)
leaves EXACTLY ONE `heart_beat` row for that MAC; its `ip_address` and
`sn` are those of the FIRST submission (even when the second supplies
different values), its `create_time` is the first submission's server
time, and only `beat_time` carries the second submission's value. -/
theorem c2_second_submission_only_beat_time
    (fromiso : String → Option Timestamp) (st : Store)
    (inp1 inp2 : HeartBeatInput) (now1 now2 t1 t2 : Timestamp)
    (hmac : inp2.mac_address = inp1.mac_address)
    (h0 : ∀ r ∈ st.heart_beat, r.mac_address ≠ inp1.mac_address)
    (hp1 : parse_beat_time fromiso inp1.beat_time = some t1)
    (hp2 : parse_beat_time fromiso inp2.beat_time = some t2) :
    let st1 := (create_or_update_heartbeat fromiso (fun _ => false)
      st inp1 now1).1
    let st2 := (create_or_update_heartbeat fromiso (fun _ => false)
      st1 inp2 now2).1
    st2.heart_beat.filter
        (fun r => decide (r.mac_address = inp1.mac_address)) =
      [⟨inp1.ip_address, inp1.mac_address, inp1.sn, t2, now1⟩] := by
  intro st1 st2
  have hne : ¬ ∃ r ∈ st.heart_beat, r.mac_address = inp1.mac_address := by
    rintro ⟨r, hr, hrm⟩
    exact h0 r hr hrm
  have e1 : st1.heart_beat =
      st.heart_beat ++ [⟨inp1.ip_address, inp1.mac_address, inp1.sn, t1, now1⟩] := by
    show ((create_or_update_heartbeat fromiso (fun _ => false)
      st inp1 now1).1).heart_beat = _
    rw [upsert_ok_heart_beat fromiso st inp1 now1 t1 hp1]
    simp only [if_neg hne]
  have hex : ∃ r ∈ st1.heart_beat, r.mac_address = inp2.mac_address := by
    refine ⟨⟨inp1.ip_address, inp1.mac_address, inp1.sn, t1, now1⟩, ?_, hmac.symm⟩
    rw [e1]
    exact List.mem_append_right _ (List.mem_singleton.mpr rfl)
  have e2 : st2.heart_beat = st1.heart_beat.map fun r =>
      if r.mac_address = inp2.mac_address then { r with beat_time := t2 }
      else r := by
    show ((create_or_update_heartbeat fromiso (fun _ => false)
      st1 inp2 now2).1).heart_beat = _
    rw [upsert_ok_heart_beat fromiso st1 inp2 now2 t2 hp2]
    simp only [if_pos hex]
  rw [e2, e1, List.map_append, List.filter_append]
  have emap : (st.heart_beat.map fun r =>
      if r.mac_address = inp2.mac_address then { r with beat_time := t2 }
      else r) = st.heart_beat := by
    have hid : (st.heart_beat.map fun r =>
        if r.mac_address = inp2.mac_address then { r with beat_time := t2 }
        else r) = st.heart_beat.map id := by
      apply List.map_congr_left
      intro r hr
      simp only [id]
      rw [if_neg]
      rw [hmac]
      exact h0 r hr
    rw [hid, List.map_id]
  rw [emap]
  have efil : st.heart_beat.filter
      (fun r => decide (r.mac_address = inp1.mac_address)) = [] := by
    rw [List.filter_eq_nil_iff]
    intro r hr
    simpa using h0 r hr
  rw [efil]
  simp [hmac]

/-- Witness for C2: two concrete submissions for MAC "AA:BB" against the
empty store, with a length-based concrete stand-in for the timestamp
parser. -/
theorem c2_witness :
    let st1 := (create_or_update_heartbeat (fun s => some (s.length : Int))
      (fun _ => false) ⟨[], []⟩ ⟨"10.0.0.1", "AA:BB", "X1", "T0"⟩ 5).1
    let st2 := (create_or_update_heartbeat (fun s => some (s.length : Int))
      (fun _ => false) st1 ⟨"10.0.0.2", "AA:BB", "X2", "T00"⟩ 9).1
    st2.heart_beat.filter (fun r => decide (r.mac_address = "AA:BB")) =
      [⟨"10.0.0.1", "AA:BB", "X1", 3, 5⟩] :=
  c2_second_submission_only_beat_time (fun s => some (s.length : Int))
    ⟨[], []⟩ ⟨"10.0.0.1", "AA:BB", "X1", "T0"⟩
    ⟨"10.0.0.2", "AA:BB", "X2", "T00"⟩ 5 9 2 3 rfl (by decide) rfl rfl

/-- C4: heartbeat submission never touches `device_map` (hence never
changes any `DeviceRecord.status`, whatever the parse outcome or storage
error); and a device all of whose `device_map` rows are "offline" that has
a heartbeat at or after the threshold is set to "online" by the next
active Reconciler tick. -/
theorem c4_status_only_by_reconciler
    (fromiso : String → Option Timestamp) (oracle : Nat → Bool) (st : Store)
    (inp : HeartBeatInput) (now tick_now : Timestamp) (mac : String) :
    ((create_or_update_heartbeat fromiso oracle st inp now).1.device_map =
      st.device_map) ∧
    ((∀ d ∈ st.device_map, d.mac_address = mac → d.status = "offline") →
     (∃ h ∈ st.heart_beat, h.mac_address = mac ∧
        tick_now - fiveMinutes ≤ h.beat_time) →
     ∀ d ∈ (monitor_tick st tick_now).1.device_map,
        d.mac_address = mac → d.status = "online") := by
  constructor
  · unfold create_or_update_heartbeat
    dsimp only
    repeat' split <;> try rfl
  · intro hall hfresh d hd hdmac
    rw [monitor_tick_device_map, List.mem_map] at hd
    obtain ⟨d0, hd0, rfl⟩ := hd
    have hmac0 : d0.mac_address = mac := by
      revert hdmac
      dsimp only
      split <;> split <;> exact fun h => h
    have htq : mac ∉ timeout_query st.heart_beat st.device_map
        (tick_now - fiveMinutes) := by
      rw [mem_timeout_query]
      rintro ⟨h, -, -, -, d', hd', hdm', hds'⟩
      exact hds' (hall d' hd' hdm')
    have hn1 : d0.mac_address ∉ timeout_query st.heart_beat st.device_map
        (tick_now - fiveMinutes) := by
      rw [hmac0]
      exact htq
    have hfix : (if d0.mac_address ∈ timeout_query st.heart_beat
        st.device_map (tick_now - fiveMinutes)
        then { d0 with status := "offline" } else d0) = d0 := if_neg hn1
    have honline : mac ∈ online_query st.heart_beat
        (st.device_map.map (fun d => if d.mac_address ∈
          timeout_query st.heart_beat st.device_map (tick_now - fiveMinutes)
          then { d with status := "offline" } else d))
        (tick_now - fiveMinutes) := by
      rw [mem_online_query]
      obtain ⟨h, hh, hhm, hge⟩ := hfresh
      refine ⟨h, hh, hhm, hge, d0, ?_, hmac0, hall d0 hd0 hmac0⟩
      exact hfix ▸ List.mem_map_of_mem _ hd0
    have ho : d0.mac_address ∈ online_query st.heart_beat
        (st.device_map.map (fun d => if d.mac_address ∈
          timeout_query st.heart_beat st.device_map (tick_now - fiveMinutes)
          then { d with status := "offline" } else d))
        (tick_now - fiveMinutes) := by
      rw [hmac0]
      exact honline
    dsimp only
    rw [hfix, if_pos ho]

/-- Witness for C4: a concrete offline device with a fresh heartbeat, plus
a concrete submission that leaves `device_map` untouched. -/
theorem c4_witness :
    ((create_or_update_heartbeat (fun s => some (s.length : Int))
        (fun _ => false)
        ⟨[], [⟨1, "AA:BB", none, none, "offline", none, 0⟩]⟩
        ⟨"10.0.0.1", "AA:BB", "X1", "T0"⟩ 5).1.device_map =
      [⟨1, "AA:BB", none, none, "offline", none, 0⟩]) ∧
    (∀ d ∈ (monitor_tick ⟨[⟨"10.0.0.1", "AA:BB", "X1", 900, 0⟩],
        [⟨1, "AA:BB", none, none, "offline", none, 0⟩]⟩ 1000).1.device_map,
        d.mac_address = "AA:BB" → d.status = "online") :=
  ⟨(c4_status_only_by_reconciler (fun s => some (s.length : Int))
      (fun _ => false)
      ⟨[], [⟨1, "AA:BB", none, none, "offline", none, 0⟩]⟩
      ⟨"10.0.0.1", "AA:BB", "X1", "T0"⟩ 5 1000 "AA:BB").1,
   (c4_status_only_by_reconciler (fun s => some (s.length : Int))
      (fun _ => false)
      ⟨[⟨"10.0.0.1", "AA:BB", "X1", 900, 0⟩],
       [⟨1, "AA:BB", none, none, "offline", none, 0⟩]⟩
      ⟨"10.0.0.1", "AA:BB", "X1", "T0"⟩ 5 1000 "AA:BB").2
     (by decide) (by decide)⟩

/-- C5: the whole upsert unit of work (existence check, insert-or-update,
`device_map` lookup) runs in one transaction, so whenever the operation
returns an error — a storage statement failing at any of the three
positions, or the earlier parse failure — the store is left exactly as it
was: no partial write persists. -/
theorem c5_error_aborts_atomically (fromiso : String → Option Timestamp)
    (oracle : Nat → Bool) (st : Store) (inp : HeartBeatInput)
    (now : Timestamp) (e : Err)
    (h : (create_or_update_heartbeat fromiso oracle st inp now).2 = .error e) :
    (create_or_update_heartbeat fromiso oracle st inp now).1 = st := by
  cases hp : parse_beat_time fromiso inp.beat_time <;>
  cases h0 : oracle 0 <;>
  cases h1 : oracle 1 <;>
  cases h2 : oracle 2 <;>
  cases hfind : st.device_map.find?
      (fun d => d.mac_address = inp.mac_address) <;>
    simp [create_or_update_heartbeat, hp, h0, h1, h2, hfind] at h ⊢

/-- Witness for C5: a schedule on which the very first storage statement
fails; the result is the storage error and the store is unchanged. -/
theorem c5_witness :
    (create_or_update_heartbeat (fun _ => some 0) (fun _ => true)
      ⟨[], []⟩ ⟨"10.0.0.1", "AA:BB", "X1", "T0"⟩ 0).2 = .error storageErr ∧
    (create_or_update_heartbeat (fun _ => some 0) (fun _ => true)
      ⟨[], []⟩ ⟨"10.0.0.1", "AA:BB", "X1", "T0"⟩ 0).1 = ⟨[], []⟩ :=
  ⟨rfl, c5_error_aborts_atomically (fun _ => some 0) (fun _ => true)
    ⟨[], []⟩ ⟨"10.0.0.1", "AA:BB", "X1", "T0"⟩ 0 storageErr rfl⟩

/-- C6 counterexample: a submission whose `beat_time` does not parse is
answered with HTTP status 500 (the generic server-side failure channel),
not with a client-facing 400/InvalidRequest as the claim states: the
`ValueError` from `datetime.fromisoformat` is swallowed by the endpoint's
generic `except Exception` handler (app.py lines 197-199). -/
theorem c6_counterexample :
    (create_or_update_heartbeat (fun _ => none) (fun _ => false) ⟨[], []⟩
      ⟨"10.0.0.1", "AA:BB", "X1", "not-a-timestamp"⟩ 0).2 =
      .error ⟨500, "Invalid isoformat string: not-a-timestamp"⟩ ∧
    (500 : Nat) ≠ 400 :=
  ⟨rfl, by decide⟩

/-- C6 amended: a submission whose `beat_time` fails to parse is rejected
before any write, with the generic server-side error (HTTP 500) carrying
the parse failure message — the same channel as a storage failure — and
the store untouched. -/
theorem c6_unparseable_is_500 (fromiso : String → Option Timestamp)
    (oracle : Nat → Bool) (st : Store) (inp : HeartBeatInput)
    (now : Timestamp)
    (hfail : parse_beat_time fromiso inp.beat_time = none) :
    create_or_update_heartbeat fromiso oracle st inp now =
      (st, .error ⟨500, "Invalid isoformat string: " ++ inp.beat_time⟩) := by
  unfold create_or_update_heartbeat
  rw [hfail]

/-- Witness for the amended C6 at a concrete unparseable submission. -/
theorem c6_witness :
    parse_beat_time (fun _ => none) "2024-13-99T99:99:99" = none ∧
    create_or_update_heartbeat (fun _ => none) (fun _ => false) ⟨[], []⟩
      ⟨"10.0.0.1", "AA:BB", "X1", "2024-13-99T99:99:99"⟩ 3 =
      (⟨[], []⟩,
       .error ⟨500, "Invalid isoformat string: 2024-13-99T99:99:99"⟩) :=
  ⟨rfl, c6_unparseable_is_500 (fun _ => none) (fun _ => false) ⟨[], []⟩
    ⟨"10.0.0.1", "AA:BB", "X1", "2024-13-99T99:99:99"⟩ 3 rfl⟩

/-- When the record exists and any supplied `beat_time` parses, the update
endpoint reduces to `update_apply` at the parsed optional timestamp. -/
theorem update_heartbeat_exists_eq (fromiso : String → Option Timestamp)
    (st : Store) (mac : String) (u : HeartBeatUpdate)
    (hex : ∃ r ∈ st.heart_beat, r.mac_address = mac)
    (hok : ∀ s ∈ u.beat_time, (parse_beat_time fromiso s).isSome) :
    update_heartbeat fromiso st mac u =
      update_apply st mac u (u.beat_time.bind (parse_beat_time fromiso)) := by
  unfold update_heartbeat
  rw [if_pos hex]
  cases hbtc : u.beat_time with
  | none => rfl
  | some s =>
    have hs := hok s (by simp [hbtc])
    obtain ⟨t, ht⟩ := Option.isSome_iff_exists.mp hs
    dsimp only [Option.bind]
    rw [ht]

/-- C8: the update endpoint fails with 404 when no record exists for the
MAC, fails with 400 ("No fields to update") when no field is supplied,
and otherwise rewrites exactly the supplied fields on the rows of that MAC
(unsupplied fields and all other rows keep their prior values, and
`device_map` is untouched), answering with exactly the supplied field
names and the count message. -/
theorem c8_update_semantics (fromiso : String → Option Timestamp)
    (st : Store) (mac : String) (u : HeartBeatUpdate) :
    ((∀ r ∈ st.heart_beat, r.mac_address ≠ mac) →
      update_heartbeat fromiso st mac u =
        (st, .error ⟨404, "Heart beat record not found"⟩)) ∧
    ((∃ r ∈ st.heart_beat, r.mac_address = mac) →
      u.ip_address = none → u.sn = none → u.beat_time = none →
      update_heartbeat fromiso st mac u =
        (st, .error ⟨400, "No fields to update"⟩)) ∧
    ((∃ r ∈ st.heart_beat, r.mac_address = mac) →
      (∀ s ∈ u.beat_time, (parse_beat_time fromiso s).isSome) →
      suppliedNames u ≠ [] →
      (update_heartbeat fromiso st mac u).2 =
        .ok ⟨suppliedNames u, "Successfully updated " ++
          toString (suppliedNames u).length ++ " field(s)"⟩ ∧
      (update_heartbeat fromiso st mac u).1.device_map = st.device_map ∧
      ∀ p ∈ st.heart_beat.zip
          (update_heartbeat fromiso st mac u).1.heart_beat,
        (p.1.mac_address ≠ mac → p.2 = p.1) ∧
        (p.1.mac_address = mac →
          p.2.mac_address = p.1.mac_address ∧
          p.2.create_time = p.1.create_time ∧
          p.2.ip_address = u.ip_address.getD p.1.ip_address ∧
          p.2.sn = u.sn.getD p.1.sn ∧
          p.2.beat_time = (u.beat_time.bind
            (parse_beat_time fromiso)).getD p.1.beat_time)) := by
  refine ⟨?_, ?_, ?_⟩
  · intro hnone
    unfold update_heartbeat
    rw [if_neg]
    rintro ⟨r, hr, hrm⟩
    exact hnone r hr hrm
  · intro hex h1 h2 h3
    unfold update_heartbeat
    rw [if_pos hex, h3]
    unfold update_apply
    simp [h1, h2]
  · intro hex hparse hne
    have heq := update_heartbeat_exists_eq fromiso st mac u hex hparse
    have hbs : (u.beat_time.bind (parse_beat_time fromiso)).isSome =
        u.beat_time.isSome := by
      cases hbtc : u.beat_time with
      | none => rfl
      | some s =>
        have hs := hparse s (by simp [hbtc])
        simpa using hs
    have hnames : (if u.ip_address.isSome then ["ip_address"] else []) ++
        (if u.sn.isSome then ["sn"] else []) ++
        (if (u.beat_time.bind (parse_beat_time fromiso)).isSome
          then ["beat_time"] else []) = suppliedNames u := by
      rw [hbs]
      rfl
    have hnem : (suppliedNames u).isEmpty = false := by
      cases hsn : suppliedNames u
      · exact absurd hsn hne
      · rfl
    have hcond : ¬ ((suppliedNames u).isEmpty = true) := by
      rw [hnem]
      exact Bool.false_ne_true
    rw [heq]
    unfold update_apply
    dsimp only
    rw [hnames, if_neg hcond]
    refine ⟨rfl, rfl, ?_⟩
    dsimp only
    rw [zip_self_map]
    intro p hp
    rw [List.mem_map] at hp
    obtain ⟨r, hr, rfl⟩ := hp
    constructor
    · intro hne'
      simp only [if_neg hne']
    · intro heq'
      simp [if_pos heq']

/-- Witness for C8: the 404 case on an unknown MAC, the 400 case on an
empty update, and a one-field update (`sn` only) that changes only `sn`
and reports exactly that field name. -/
theorem c8_witness :
    (update_heartbeat lenIso sampleStore "CC:DD"
        ⟨some "10.0.0.2", none, none⟩ =
      (sampleStore, .error ⟨404, "Heart beat record not found"⟩)) ∧
    (update_heartbeat lenIso sampleStore "AA:BB" ⟨none, none, none⟩ =
      (sampleStore, .error ⟨400, "No fields to update"⟩)) ∧
    ((update_heartbeat lenIso sampleStore "AA:BB" ⟨none, some "X2", none⟩).2 =
      .ok ⟨suppliedNames ⟨none, some "X2", none⟩,
        "Successfully updated " ++
          toString (suppliedNames ⟨none, some "X2", none⟩).length ++
          " field(s)"⟩ ∧
     (update_heartbeat lenIso sampleStore "AA:BB"
        ⟨none, some "X2", none⟩).1.device_map = sampleStore.device_map ∧
     ∀ p ∈ sampleStore.heart_beat.zip
         (update_heartbeat lenIso sampleStore "AA:BB"
           ⟨none, some "X2", none⟩).1.heart_beat,
       (p.1.mac_address ≠ "AA:BB" → p.2 = p.1) ∧
       (p.1.mac_address = "AA:BB" →
         p.2.mac_address = p.1.mac_address ∧
         p.2.create_time = p.1.create_time ∧
         p.2.ip_address = Option.getD none p.1.ip_address ∧
         p.2.sn = Option.getD (some "X2") p.1.sn ∧
         p.2.beat_time = Option.getD
           (Option.bind none (parse_beat_time lenIso)) p.1.beat_time)) :=
  ⟨(c8_update_semantics lenIso sampleStore "CC:DD"
      ⟨some "10.0.0.2", none, none⟩).1 (by decide),
   (c8_update_semantics lenIso sampleStore "AA:BB"
      ⟨none, none, none⟩).2.1 (by decide) rfl rfl rfl,
   (c8_update_semantics lenIso sampleStore "AA:BB"
      ⟨none, some "X2", none⟩).2.2 (by decide) (by simp) (by decide)⟩

/-- Replacement commutes with a Z-free prefix. -/
theorem replaceZChars_append (a l : List Char) (ha : 'Z' ∉ a) :
    replaceZChars (a ++ l) = a ++ replaceZChars l := by
  induction a with
  | nil => rfl
  | cons c cs ih =>
    have hc : c ≠ 'Z' := by
      intro h
      apply ha
      rw [h]
      exact List.mem_cons_self _ _
    have hcs : 'Z' ∉ cs := fun h => ha (List.mem_cons_of_mem c h)
    simp [replaceZChars, if_neg hc, ih hcs]

/-- C10: the shared parsing expression replaces EVERY occurrence of `Z`
(here: one at an arbitrary, possibly non-trailing, position after a Z-free
prefix `a`, and recursively all further occurrences in `b`) by `+00:00`
before handing the string to the ISO-8601 parser, and a string is accepted
exactly when the parser accepts the transformed string. -/
theorem c10_replaces_every_Z (fromiso : String → Option Timestamp)
    (a b : List Char) (ha : 'Z' ∉ a) :
    parse_beat_time fromiso ⟨a ++ 'Z' :: b⟩ =
      fromiso ⟨a ++ '+' :: '0' :: '0' :: ':' :: '0' :: '0' ::
        replaceZChars b⟩ ∧
    ∀ s : String, (parse_beat_time fromiso s).isSome =
      (fromiso (replaceZ s)).isSome := by
  refine ⟨?_, fun s => rfl⟩
  unfold parse_beat_time replaceZ
  congr 2
  rw [show (String.mk (a ++ 'Z' :: b)).data = a ++ 'Z' :: b from rfl]
  rw [replaceZChars_append a _ ha]
  simp [replaceZChars]

/-- Witness for C10: a concrete string with a non-trailing `Z`. -/
theorem c10_witness :
    parse_beat_time lenIso ⟨['2', '0', '2', '4'] ++ 'Z' :: ['0', '1']⟩ =
      lenIso ⟨['2', '0', '2', '4'] ++ '+' :: '0' :: '0' :: ':' :: '0' ::
        '0' :: replaceZChars ['0', '1']⟩ ∧
    (parse_beat_time lenIso "12Z34").isSome =
      (lenIso (replaceZ "12Z34")).isSome :=
  ⟨(c10_replaces_every_Z lenIso ['2', '0', '2', '4'] ['0', '1']
      (by decide)).1,
   (c10_replaces_every_Z lenIso ['2', '0', '2', '4'] ['0', '1']
      (by decide)).2 "12Z34"⟩

end HeartBeat
